import Mathlib

/-!
Verification of the devagent provider-selection / caching core.

This file is a shallow embedding of the TypeScript sources:
  src/providers/ProviderFactory.ts, src/providers/OpenAIProvider.ts
  (which also hosts FileRelevanceAnalyzer), the GeminiProvider and
  ClaudeProvider implementations, src/core/RepositoryCache.ts, the
  RepositoryAnalyzer, and src/config/constants.ts.

Modelling conventions:
* JavaScript strings become Lean `String`; the JS builtins used by the code
  (`String.prototype.includes`, `toLowerCase`, `split`, `trim`, `substring`)
  are re-implemented structurally on `List Char` so that all definitions
  evaluate inside the kernel.  `includes` is case-sensitive, exactly as in JS.
* `process.env` becomes an explicit `Env` record of `Option String` fields;
  JS truthiness of an env var (`undefined` and `""` are falsy) is `truthy`.
* Exceptions become `Except String`; a TS method whose body is wrapped in a
  `try/catch` that only logs becomes a total function returning `Unit`.
* The filesystem seen by the cache becomes an explicit `CacheState`: each
  cache file is `Option (mtime × parsed content)`; `Date.now()` is an `Int`
  argument (epoch milliseconds).  JSON round-tripping of data the code itself
  wrote is modelled as the identity.
* The JS floating-point age comparisons `(now-mtime)/1000/60 > maxAgeMinutes`
  and `(now-mtime)/86400000 < days` are embedded as the exactly equivalent
  integer comparisons `now-mtime > maxAgeMinutes*60*1000` and
  `now-mtime < days*86400000` (exact real arithmetic; the divisors are
  positive constants).
* `JSON.parse` inside ClaudeProvider.parseResponse is an abstract parameter
  `jsonParse : String → Option ClaudeParsed` (a builtin, like `fs`), `none`
  meaning a thrown SyntaxError.
-/

namespace DevAgent

/-! ## JS string builtins, re-implemented structurally -/

/-- `pat` is a prefix of the second list (helper for `includes`). -/
def listStartsWith : List Char → List Char → Bool
  | [], _ => true
  | _ :: _, [] => false
  | p :: ps, c :: cs => p == c && listStartsWith ps cs

/-- Occurrence of `pat` anywhere in the list (helper for `includes`). -/
def charsInclude (pat : List Char) : List Char → Bool
  | [] => listStartsWith pat []
  | c :: t => listStartsWith pat (c :: t) || charsInclude pat t

/-- JS `s.includes(pat)`: case-sensitive substring test. -/
def strIncludes (s pat : String) : Bool := charsInclude pat.toList s.toList

/-- JS `s.toLowerCase()` (ASCII case folding suffices for the code's data). -/
def strToLower (s : String) : String := String.mk (s.toList.map Char.toLower)

/-- JS `s.split(sep)` for a single-character separator (helper). -/
def splitChars (sep : Char) : List Char → List (List Char)
  | [] => [[]]
  | x :: xs =>
    let r := splitChars sep xs
    if x == sep then [] :: r
    else
      match r with
      | h :: t => (x :: h) :: t
      | [] => [[x]]

/-- JS `s.split(sep)` for a single-character separator. -/
def splitOnChar (sep : Char) (s : String) : List String :=
  (splitChars sep s.toList).map String.mk

/-- JS `s.substring(0, n)`. -/
def strTake (s : String) (n : Nat) : String := String.mk (s.toList.take n)

/-- JS `s.trim()`. -/
def strTrim (s : String) : String :=
  String.mk ((((s.toList.dropWhile Char.isWhitespace).reverse).dropWhile
    Char.isWhitespace).reverse)

/-- JS truthiness of an environment variable: `undefined` and `""` are falsy. -/
def truthy : Option String → Bool
  | none => false
  | some s => !(s == "")

/-! ## Provider data model (src/types, AIProvider enum) -/

/-- The `AIProvider` enum: `claude`, `gemini`, `openai`. -/
inductive AIProvider where
  | claude
  | gemini
  | openai
deriving DecidableEq

/-- The enum's string value (`AIProvider.CLAUDE = 'claude'`, ...). -/
def AIProvider.value : AIProvider → String
  | .claude => "claude"
  | .gemini => "gemini"
  | .openai => "openai"

/-- The slice of `process.env` read by the provider factory. -/
structure Env where
  ANTHROPIC_API_KEY : Option String
  GOOGLE_API_KEY : Option String
  OPENAI_API_KEY : Option String
  AI_PROVIDER : Option String
  AI_MODEL : Option String
deriving DecidableEq

/-- `ProviderConfig` as built by the factory (`provider`, `model`, `apiKey`). -/
structure ProviderConfig where
  provider : AIProvider
  model : Option String
  apiKey : Option String
deriving DecidableEq

/-- The API-key environment variable belonging to a provider, as read in the
`switch` statements of `getProviderConfig` and `createProviderWithFallback`. -/
def envKeyFor (env : Env) : AIProvider → Option String
  | .claude => env.ANTHROPIC_API_KEY
  | .gemini => env.GOOGLE_API_KEY
  | .openai => env.OPENAI_API_KEY

/-! ## ProviderFactory (src/providers/ProviderFactory.ts) -/

/-- `ProviderFactory.detectProvider`: priority Claude > Gemini > OpenAI by
key presence (JS truthiness), defaulting to Claude. -/
def detectProvider (env : Env) : AIProvider :=
  if truthy env.ANTHROPIC_API_KEY then .claude
  else if truthy env.GOOGLE_API_KEY then .gemini
  else if truthy env.OPENAI_API_KEY then .openai
  else .claude

/-- The `envProvider && Object.values(AIProvider).includes(envProvider)` test
of `getProviderConfig`, on the lowercased `AI_PROVIDER` value.  Returns the
explicitly selected provider, or `none` when the override is absent, empty,
or not one of the three enum values. -/
def parsedOverride (env : Env) : Option AIProvider :=
  match env.AI_PROVIDER with
  | none => none
  | some v =>
    let envProvider := strToLower v
    if envProvider == "claude" then some .claude
    else if envProvider == "gemini" then some .gemini
    else if envProvider == "openai" then some .openai
    else none

/-- `ProviderFactory.getProviderConfig`. -/
def getProviderConfig (env : Env) : ProviderConfig :=
  let provider := (parsedOverride env).getD (detectProvider env)
  { provider := provider
    model := env.AI_MODEL
    apiKey := envKeyFor env provider }

/-- `ProviderFactory.createProvider`: the `switch` over the three enum values
always constructs; the `default: throw` branch is unreachable for a value of
the enum type, which the `Except` result records. -/
def createProvider : AIProvider → Except String AIProvider
  | .claude => .ok .claude
  | .gemini => .ok .gemini
  | .openai => .ok .openai

/-- `ProviderFactory.getFallbackProviders`: priority order minus the primary. -/
def getFallbackProviders (primaryProvider : AIProvider) : List AIProvider :=
  [AIProvider.claude, AIProvider.gemini, AIProvider.openai].filter
    (fun p => !(p == primaryProvider))

/-! ## validateCLI for the three providers

Each `validateCLI` wraps its whole body in `try { ... } catch { log }`:
the body may throw (modelled by `Except`), the method itself cannot.
`spawnSync` results are explicit data. -/

/-- A `spawnSync` result: `error` holds the spawn-failure code (for example
`"TIMEOUT"` or `"ENOENT"`) when the subprocess could not run or timed out. -/
structure SpawnResult where
  error : Option String
  status : Int
  stdout : String
  stderr : String
  signal : Option String
deriving DecidableEq

/-- Body of `ClaudeProvider.validateCLI` (the `try` block).  The version probe
throws on spawn error or non-zero status; every auth-probe outcome merely logs
and returns. -/
def claudeValidateCLIBody (versionResult authResult : SpawnResult) :
    Except String Unit :=
  match versionResult.error with
  | some e => .error ("Claude CLI not found: " ++ e)
  | none =>
    if versionResult.status != 0 then
      .error ("Claude CLI version check failed with status " ++
        toString versionResult.status)
    else
      match authResult.error with
      | some _ => .ok ()
      | none => .ok ()

/-- `ClaudeProvider.validateCLI`: the surrounding `catch` swallows every
throw from the body, so the method always returns normally. -/
def claudeValidateCLI (versionResult authResult : SpawnResult) : Unit :=
  match claudeValidateCLIBody versionResult authResult with
  | .ok u => u
  | .error _ => ()

/-- Body of `GeminiProvider.validateCLI` (same shape as Claude's). -/
def geminiValidateCLIBody (versionResult authResult : SpawnResult) :
    Except String Unit :=
  match versionResult.error with
  | some e => .error ("Gemini CLI not found: " ++ e)
  | none =>
    if versionResult.status != 0 then
      .error ("Gemini CLI version check failed with status " ++
        toString versionResult.status)
    else
      match authResult.error with
      | some _ => .ok ()
      | none => .ok ()

/-- `GeminiProvider.validateCLI`: never throws. -/
def geminiValidateCLI (versionResult authResult : SpawnResult) : Unit :=
  match geminiValidateCLIBody versionResult authResult with
  | .ok u => u
  | .error _ => ()

/-- Body of `OpenAIProvider.validateCLI` (only the spawn-error of the
`codex --upgrade` probe throws; there is no status check). -/
def openaiValidateCLIBody (versionResult authResult : SpawnResult) :
    Except String Unit :=
  match versionResult.error with
  | some e => .error ("OpenAI Codex CLI not found: " ++ e)
  | none =>
    match authResult.error with
    | some _ => .ok ()
    | none => .ok ()

/-- `OpenAIProvider.validateCLI`: never throws. -/
def openaiValidateCLI (versionResult authResult : SpawnResult) : Unit :=
  match openaiValidateCLIBody versionResult authResult with
  | .ok u => u
  | .error _ => ()

/-- The six `spawnSync` results the three `validateCLI` implementations can
observe during one factory call (version probe and auth probe per provider). -/
structure SpawnWorld where
  claudeVersion : SpawnResult
  claudeAuth : SpawnResult
  geminiVersion : SpawnResult
  geminiAuth : SpawnResult
  openaiVersion : SpawnResult
  openaiAuth : SpawnResult
deriving DecidableEq

/-- Dispatch `provider.validateCLI()` for the instantiated provider. -/
def validateCLI (w : SpawnWorld) : AIProvider → Unit
  | .claude => claudeValidateCLI w.claudeVersion w.claudeAuth
  | .gemini => geminiValidateCLI w.geminiVersion w.geminiAuth
  | .openai => openaiValidateCLI w.openaiVersion w.openaiAuth

/-- The `for (const fallbackProvider of fallbackProviders)` loop of
`createProviderWithFallback`: skip candidates with a falsy API key, try
construction + validation, return the first success; exhaustion throws the
"All AI providers failed" error. -/
def fallbackLoop (env : Env) (w : SpawnWorld) (primaryConfig : ProviderConfig) :
    List AIProvider → Except String ProviderConfig
  | [] =>
    .error ("All AI providers failed to initialize. Available providers: " ++
      "claude, gemini, openai")
  | p :: rest =>
    let fallbackConfig : ProviderConfig :=
      { primaryConfig with provider := p, apiKey := envKeyFor env p }
    if truthy fallbackConfig.apiKey = false then
      fallbackLoop env w primaryConfig rest
    else
      match createProvider p with
      | .ok _ =>
        let _ := validateCLI w p
        .ok fallbackConfig
      | .error _ => fallbackLoop env w primaryConfig rest

/-- `ProviderFactory.createProviderWithFallback`: try the primary provider
(construction, then `validateCLI()`); on a throw, run the fallback loop.
The returned `ProviderConfig` stands for the `{provider, config}` pair. -/
def createProviderWithFallback (env : Env) (w : SpawnWorld) :
    Except String ProviderConfig :=
  let primaryConfig := getProviderConfig env
  match createProvider primaryConfig.provider with
  | .ok _ =>
    let _ := validateCLI w primaryConfig.provider
    .ok primaryConfig
  | .error _ =>
    fallbackLoop env w primaryConfig (getFallbackProviders primaryConfig.provider)

/-! ## Provider runtime: parseResponse and runPrompt classification -/

/-- `TokenUsage` (src/types). -/
structure TokenUsage where
  inputTokens : Int
  outputTokens : Int
  cachedTokens : Int
deriving DecidableEq

/-- One chat message of an `AIResponse`. -/
structure ChatMessage where
  role : String
  content : String
deriving DecidableEq

/-- `AIResponse` (src/types): `messages?`, `usage?`, `error?` (the error's
message string). -/
structure AIResponse where
  messages : Option (List ChatMessage)
  usage : Option TokenUsage
  error : Option String
deriving DecidableEq

/-- The `usage` object of a parsed Claude CLI JSON document
(`input_tokens`, `output_tokens`, `cache_read_input_tokens`, each possibly
absent). -/
structure ClaudeUsage where
  input_tokens : Option Int
  output_tokens : Option Int
  cache_read_input_tokens : Option Int
deriving DecidableEq

/-- A successfully `JSON.parse`d Claude CLI output document. -/
structure ClaudeParsed where
  messages : Option (List ChatMessage)
  usage : Option ClaudeUsage
  error : Option String
deriving DecidableEq

/-- `ClaudeProvider.parseTokenUsage`: `usage.input_tokens || 0` and friends. -/
def parseTokenUsage (parsed : ClaudeParsed) : TokenUsage :=
  match parsed.usage with
  | none => { inputTokens := 0, outputTokens := 0, cachedTokens := 0 }
  | some u =>
    { inputTokens := u.input_tokens.getD 0
      outputTokens := u.output_tokens.getD 0
      cachedTokens := u.cache_read_input_tokens.getD 0 }

/-- The two kinds of error `ClaudeProvider.parseResponse` can throw. -/
inductive ParseError where
  | rateLimited (msg : String)
  | invalidJson (msg : String)
deriving DecidableEq

/-- `ClaudeProvider.parseResponse` over an abstract `JSON.parse`
(`jsonParse output = none` models the thrown SyntaxError): on parse failure,
a case-sensitive scan of the raw output for rate-limit phrases decides
between the rate-limit error and the generic invalid-JSON error. -/
def claudeParseResponse (jsonParse : String → Option ClaudeParsed)
    (output : String) : Except ParseError AIResponse :=
  match jsonParse output with
  | some parsed =>
    .ok { messages := parsed.messages
          usage := some (parseTokenUsage parsed)
          error := parsed.error }
  | none =>
    if strIncludes output "rate limit" || strIncludes output "usage limit" ||
        strIncludes output "quota exceeded" ||
        strIncludes output "try again later" then
      .error (.rateLimited
        ("Claude API rate limited. Output: " ++ strTake output 200 ++ "..."))
    else
      .error (.invalidJson "Claude returned invalid JSON")

/-- `estimateTokenUsage` of Gemini/OpenAI: `Math.ceil(output.length / 4)`
output tokens, zero input and cached tokens. -/
def estimateTokenUsage (output : String) : TokenUsage :=
  { inputTokens := 0
    outputTokens := ((output.length + 3) / 4 : Nat)
    cachedTokens := 0 }

/-- `GeminiProvider.parseResponse`: raw stdout becomes the single assistant
message, with estimated usage. -/
def geminiParseResponse (output : String) : AIResponse :=
  { messages := some [{ role := "assistant", content := strTrim output }]
    usage := some (estimateTokenUsage output)
    error := none }

/-- `OpenAIProvider.parseResponse`: identical shape to Gemini's. -/
def openaiParseResponse (output : String) : AIResponse :=
  { messages := some [{ role := "assistant", content := strTrim output }]
    usage := some (estimateTokenUsage output)
    error := none }

/-- Classification of one `runPrompt` subprocess outcome. -/
inductive RunOutcome where
  | timeoutErr (msg : String)
  | spawnErr (code : String)
  | exitErr (msg : String)
  | rateLimited (msg : String)
  | invalidJson (msg : String)
  | success (resp : AIResponse)
deriving DecidableEq

/-- Whether an outcome was classified as rate-limited. -/
def RunOutcome.isRateLimitedOutcome : RunOutcome → Bool
  | .rateLimited _ => true
  | _ => false

/-- The exit-code hint appended by every provider on a non-zero exit
(1 → auth/rate-limit/permission, 127 → CLI missing, 130 → signal). -/
def exitCodeHint (status : Int) (cliName : String) : String :=
  if status == 1 then
    " (common causes: authentication failure, rate limits, invalid prompt," ++
      " or permission issues)"
  else if status == 127 then
    " (command not found - " ++ cliName ++ " may not be installed)"
  else if status == 130 then " (interrupted by signal)"
  else ""

/-- The stderr rate-limit scan of the non-zero-exit path, shared verbatim by
the three providers: case-sensitive `includes` of `'rate limit'`,
`'usage limit'`, `'quota'` on stderr only. -/
def stderrRateLimitHint (stderrText : String) : Bool :=
  strIncludes stderrText "rate limit" || strIncludes stderrText "usage limit" ||
    strIncludes stderrText "quota"

/-- `ClaudeProvider.checkForRateLimiting`: lowercases stdout and scans for the
five indicator phrases, but only ever logs a warning; it returns `true` when
some indicator is present purely so the embedding can state that fact. -/
def checkForRateLimiting (output : String) : Bool :=
  let outputLower := strToLower output
  strIncludes outputLower "rate limit" || strIncludes outputLower "usage limit" ||
    strIncludes outputLower "quota exceeded" ||
    strIncludes outputLower "try again later" ||
    strIncludes outputLower "too many requests"

/-- `ClaudeProvider.runPrompt` outcome classification: spawn error / timeout,
then non-zero exit (with hints), then — on exit 0 — `checkForRateLimiting`
(log only) followed by `parseResponse`. -/
def claudeRunPrompt (jsonParse : String → Option ClaudeParsed)
    (r : SpawnResult) : RunOutcome :=
  match r.error with
  | some code =>
    if code == "TIMEOUT" then
      .timeoutErr ("Claude CLI timed out after 300s. This could be due to:" ++
        " Rate limiting (Claude API usage limits reached), Network issues," ++
        " Large prompt processing." ++
        " Consider trying again later or checking your API usage limits.")
    else .spawnErr code
  | none =>
    if r.status != 0 then
      let errorHint := exitCodeHint r.status "Claude CLI" ++
        (if stderrRateLimitHint r.stderr then
          " This appears to be a rate limiting issue. Claude API has usage" ++
            " limits that may cause delays up to several hours."
        else "")
      .exitErr ("Claude exited with status " ++ toString r.status ++
        errorHint ++ ". Check logs for details.")
    else
      let _ := checkForRateLimiting r.stdout
      match claudeParseResponse jsonParse r.stdout with
      | .ok resp => .success resp
      | .error (.rateLimited m) => .rateLimited m
      | .error (.invalidJson m) => .invalidJson m

/-- `GeminiProvider.runPrompt` outcome classification: on exit 0 the stdout is
always a success (`parseResponse` cannot fail); no rate-limit scan runs on
successful output. -/
def geminiRunPrompt (r : SpawnResult) : RunOutcome :=
  match r.error with
  | some code =>
    if code == "TIMEOUT" then
      .timeoutErr ("Gemini CLI timed out. This could be due to:" ++
        " Rate limiting (Gemini API usage limits reached), Network issues," ++
        " Large prompt processing." ++
        " Consider trying again later or checking your API usage limits.")
    else .spawnErr code
  | none =>
    if r.status != 0 then
      let errorHint := exitCodeHint r.status "Gemini CLI" ++
        (if stderrRateLimitHint r.stderr then
          " This appears to be a rate limiting issue. Gemini API has usage" ++
            " limits."
        else "")
      .exitErr ("Gemini exited with status " ++ toString r.status ++
        errorHint ++ ". Check logs for details.")
    else .success (geminiParseResponse r.stdout)

/-- `OpenAIProvider.runPrompt` outcome classification (same shape as Gemini). -/
def openaiRunPrompt (r : SpawnResult) : RunOutcome :=
  match r.error with
  | some code =>
    if code == "TIMEOUT" then
      .timeoutErr ("OpenAI Codex CLI timed out. This could be due to:" ++
        " Rate limiting (OpenAI API usage limits reached), Network issues," ++
        " Large prompt processing." ++
        " Consider trying again later or checking your API usage limits.")
    else .spawnErr code
  | none =>
    if r.status != 0 then
      let errorHint := exitCodeHint r.status "OpenAI Codex CLI" ++
        (if stderrRateLimitHint r.stderr then
          " This appears to be a rate limiting issue. OpenAI API has usage" ++
            " limits."
        else "")
      .exitErr ("OpenAI Codex exited with status " ++ toString r.status ++
        errorHint ++ ". Check logs for details.")
    else .success (openaiParseResponse r.stdout)

/-! ## FileRelevanceAnalyzer (hosted in src/providers/OpenAIProvider.ts)
and its constants (src/config/constants.ts) -/

/-- `FILE_RELEVANCE.SCORES` from src/config/constants.ts. -/
structure FileRelevanceScores where
  MENTIONED_IN_ISSUE : Int
  KEYWORD_MATCH : Int
  RELEVANT_EXTENSION : Int
  RECENTLY_MODIFIED : Int
  TEST_FILE_PENALTY : Int
deriving DecidableEq

/-- `FILE_RELEVANCE` from src/config/constants.ts
(`RECENCY_THRESHOLD_DAYS` in days). -/
structure FileRelevanceConfig where
  MAX_RELEVANT_FILES : Nat
  SCORES : FileRelevanceScores
  RECENCY_THRESHOLD_DAYS : Int
deriving DecidableEq

/-- The constant object: 100 / 50 / 25 / 10 / −20, recency threshold 7 days,
top-20 files. -/
def FILE_RELEVANCE : FileRelevanceConfig :=
  { MAX_RELEVANT_FILES := 20
    SCORES :=
      { MENTIONED_IN_ISSUE := 100
        KEYWORD_MATCH := 50
        RELEVANT_EXTENSION := 25
        RECENTLY_MODIFIED := 10
        TEST_FILE_PENALTY := -20 }
    RECENCY_THRESHOLD_DAYS := 7 }

/-- Issue classification values (`IssueKeywords['type']`). -/
inductive IssueType where
  | bug
  | feature
  | enhancement
  | fix
  | general
deriving DecidableEq

/-- `IssueKeywords` (src/types): deduplicated terms (≤ 10) plus the type. -/
structure IssueKeywords where
  terms : List String
  type : IssueType
deriving DecidableEq

/-- `file.split('/').pop() || ''` — the file's base name. -/
def baseName (file : String) : String := (splitOnChar '/' file).getLastD ""

/-- `FileRelevanceAnalyzer.isRelevantExtension`:
`file.split('.').pop()?.toLowerCase()` checked against the per-issue-type
extension allowlists.  (`split('.')` of a dotless path yields the whole path,
exactly as in JS; `pop()` on the non-empty split result is never undefined,
so only the empty string fails the `if (!ext)` guard.) -/
def isRelevantExtension (file : String) (issueType : IssueType) : Bool :=
  let ext := strToLower ((splitOnChar '.' file).getLastD "")
  if ext == "" then false
  else
    let webExtensions := ["js", "ts", "jsx", "tsx", "css", "html", "vue"]
    let backendExtensions := ["py", "java", "go", "rb", "php", "cs"]
    let configExtensions := ["json", "yml", "yaml", "toml", "ini"]
    match issueType with
    | .bug | .fix => (webExtensions ++ backendExtensions).contains ext
    | .feature | .enhancement =>
      (webExtensions ++ backendExtensions ++ configExtensions).contains ext
    | .general => (webExtensions ++ backendExtensions).contains ext

/-- The mentioned-in-issue contribution:
`issueBody.toLowerCase().includes(fileName)` — the issue body is lowercased,
the base name is compared with its original letter case. -/
def mentionScore (file issueBody : String) : Int :=
  if strIncludes (strToLower issueBody) (baseName file) then
    FILE_RELEVANCE.SCORES.MENTIONED_IN_ISSUE
  else 0

/-- The keyword contribution: 50 per term whose lowercase form occurs in the
lowercased base name or the lowercased full path. -/
def keywordScore (file : String) (keywords : IssueKeywords) : Int :=
  let fileNameLower := strToLower (baseName file)
  let keywordMatches := keywords.terms.filter (fun keyword =>
    strIncludes fileNameLower (strToLower keyword) ||
      strIncludes (strToLower file) (strToLower keyword))
  (keywordMatches.length : Int) * FILE_RELEVANCE.SCORES.KEYWORD_MATCH

/-- The extension contribution: 25 when the extension is relevant for the
issue type. -/
def extensionScore (file : String) (issueType : IssueType) : Int :=
  if isRelevantExtension file issueType then
    FILE_RELEVANCE.SCORES.RELEVANT_EXTENSION
  else 0

/-- The recency contribution: `fs.statSync` is the explicit `fstat` map from
path to mtime (epoch ms), `none` modelling the thrown stat error, which the
code catches and ignores.  The JS test
`(now - mtime)/(1000*60*60*24) < 7` is embedded as the exactly equivalent
`now - mtime < 7 * 86400000`. -/
def recencyScore (fstat : String → Option Int) (now : Int) (file : String) :
    Int :=
  match fstat file with
  | some mtime =>
    if now - mtime < FILE_RELEVANCE.RECENCY_THRESHOLD_DAYS * 86400000 then
      FILE_RELEVANCE.SCORES.RECENTLY_MODIFIED
    else 0
  | none => 0

/-- The test-file penalty: −20 when the path matches
`\.test\.|\.spec\.|test\/|tests\/` and the keyword terms do not contain the
literal `"test"`. -/
def testPenaltyScore (file : String) (keywords : IssueKeywords) : Int :=
  if !(keywords.terms.contains "test") &&
      (strIncludes file ".test." || strIncludes file ".spec." ||
        strIncludes file "test/" || strIncludes file "tests/") then
    FILE_RELEVANCE.SCORES.TEST_FILE_PENALTY
  else 0

/-- `FileRelevanceAnalyzer.calculateFileRelevance`: the additive score
(mention + keywords + extension + recency + test penalty, in source order)
floored by `Math.max(0, score)`. -/
def calculateFileRelevance (fstat : String → Option Int) (now : Int)
    (file : String) (keywords : IssueKeywords) (issueBody : String) : Int :=
  max 0 (mentionScore file issueBody + keywordScore file keywords +
    extensionScore file keywords.type + recencyScore fstat now file +
    testPenaltyScore file keywords)

/-! ## RepositoryCache (src/core/RepositoryCache.ts) and constants -/

/-- `CACHE_EXPIRY` from src/config/constants.ts, in minutes. -/
structure CacheExpiryConfig where
  REPOSITORY_STRUCTURE : Int
  FILE_SUMMARIES : Int
  ISSUE_PATTERNS : Int
deriving DecidableEq

/-- Structure 30 min, summaries 60·24·7 min (7 days), patterns 60·24 min
(1 day). -/
def CACHE_EXPIRY : CacheExpiryConfig :=
  { REPOSITORY_STRUCTURE := 30
    FILE_SUMMARIES := 60 * 24 * 7
    ISSUE_PATTERNS := 60 * 24 }

/-- `RepositoryStructure` (src/types). -/
structure RepositoryStructure where
  type : String
  mainLanguage : String
  directories : List String
  configFiles : List String
  relevantFiles : List String
  fromCache : Bool
deriving DecidableEq

/-- `FileSummary` (src/types); `lastModified` as epoch milliseconds. -/
structure FileSummary where
  lineCount : Int
  functions : List String
  lastModified : Int
  purpose : String
deriving DecidableEq

/-- `RepositoryCacheData` (src/types): the generic persisted envelope.  The
`structure` field is spelled `structure?` because `structure` is a Lean
keyword.  The JS objects `summaries` and `patterns` are association lists. -/
structure RepositoryCacheData where
  repository : String
  timestamp : Int
  structure? : Option RepositoryStructure
  summaries : Option (List (String × FileSummary))
  patterns : Option (List (String × List String))
deriving DecidableEq

/-- The three on-disk cache files of one repository: each entry is
`none` (file absent) or `(mtime, parsed JSON content)`. -/
structure CacheState where
  repoStructureFile : Option (Int × RepositoryCacheData)
  fileSummariesFile : Option (Int × RepositoryCacheData)
  issuePatternsFile : Option (Int × RepositoryCacheData)
deriving DecidableEq

/-- `RepositoryCache.isExpired`: missing file is expired; otherwise the JS
age test `(Date.now() - stat.mtime)/1000/60 > maxAgeMinutes` is embedded as
the exactly equivalent `now - mtime > maxAgeMinutes * 60 * 1000`.  Only the
file's mtime enters the decision. -/
def isExpired (file : Option (Int × RepositoryCacheData)) (now : Int)
    (maxAgeMinutes : Int) : Bool :=
  match file with
  | none => true
  | some (mtime, _) => now - mtime > maxAgeMinutes * 60 * 1000

/-- `RepositoryCache.getRepositoryStructure`: `null` on missing/expired file,
otherwise the parsed envelope (read errors degrade to `null`; content the
cache itself wrote always parses). -/
def getRepositoryStructure (st : CacheState) (now : Int) :
    Option RepositoryCacheData :=
  if isExpired st.repoStructureFile now CACHE_EXPIRY.REPOSITORY_STRUCTURE then
    none
  else st.repoStructureFile.map Prod.snd

/-- `RepositoryCache.saveRepositoryStructure`: writes the envelope
`{repository, timestamp: Date.now(), structure}` wholesale; the structure
itself is persisted verbatim.  The write stamps the file's mtime. -/
def saveRepositoryStructure (st : CacheState) (now : Int) (repository : String)
    (s : RepositoryStructure) : CacheState :=
  { st with
    repoStructureFile := some (now,
      { repository := repository
        timestamp := now
        structure? := some s
        summaries := none
        patterns := none }) }

/-- The default envelope `getFileSummaries` returns on a miss. -/
def emptySummariesData (repository : String) (now : Int) :
    RepositoryCacheData :=
  { repository := repository
    timestamp := now
    structure? := none
    summaries := some []
    patterns := none }

/-- `RepositoryCache.getFileSummaries`: never `null`; an empty-summaries
envelope on miss/expiry. -/
def getFileSummaries (st : CacheState) (now : Int) (repository : String) :
    RepositoryCacheData :=
  if isExpired st.fileSummariesFile now CACHE_EXPIRY.FILE_SUMMARIES then
    emptySummariesData repository now
  else
    match st.fileSummariesFile with
    | some (_, d) => d
    | none => emptySummariesData repository now

/-- The default envelope `getIssuePatterns` returns on a miss. -/
def emptyPatternsData (repository : String) (now : Int) :
    RepositoryCacheData :=
  { repository := repository
    timestamp := now
    structure? := none
    summaries := none
    patterns := some [] }

/-- `RepositoryCache.getIssuePatterns`: never `null`; an empty-patterns
envelope on miss/expiry. -/
def getIssuePatterns (st : CacheState) (now : Int) (repository : String) :
    RepositoryCacheData :=
  if isExpired st.issuePatternsFile now CACHE_EXPIRY.ISSUE_PATTERNS then
    emptyPatternsData repository now
  else
    match st.issuePatternsFile with
    | some (_, d) => d
    | none => emptyPatternsData repository now

/-- JS property assignment `obj[k] = v`: update in place, else append. -/
def objSet : List (String × FileSummary) → String → FileSummary →
    List (String × FileSummary)
  | [], k, v => [(k, v)]
  | (k', v') :: rest, k, v =>
    if k' == k then (k, v) :: rest else (k', v') :: objSet rest k v

/-- JS object spread merge `{...base, ...updates}`. -/
def objMerge (base updates : List (String × FileSummary)) :
    List (String × FileSummary) :=
  updates.foldl (fun acc kv => objSet acc kv.1 kv.2) base

/-- JS `delete obj[k]`. -/
def objDelete (m : List (String × FileSummary)) (k : String) :
    List (String × FileSummary) :=
  m.filter (fun kv => !(kv.1 == k))

/-- `RepositoryCache.saveFileSummaries`: re-reads the persisted map, merges
via object spread, rewrites the whole file. -/
def saveFileSummaries (st : CacheState) (now : Int) (repository : String)
    (summaries : List (String × FileSummary)) : CacheState :=
  let existing := getFileSummaries st now repository
  let merged := objMerge (existing.summaries.getD []) summaries
  { st with
    fileSummariesFile := some (now,
      { repository := repository
        timestamp := now
        structure? := none
        summaries := some merged
        patterns := none }) }

/-- `RepositoryCache.removeFileSummary`: reads the summaries, and only when a
truthy entry exists for the path (a `FileSummary` object is always truthy, so
presence in the map), deletes it and calls `saveFileSummaries`; otherwise it
does nothing at all. -/
def removeFileSummary (st : CacheState) (now : Int) (repository : String)
    (filePath : String) : CacheState :=
  let summaries := getFileSummaries st now repository
  match (summaries.summaries.getD []).lookup filePath with
  | some _ =>
    saveFileSummaries st now repository
      (objDelete (summaries.summaries.getD []) filePath)
  | none => st

/-! ## RepositoryAnalyzer (getRepositoryContext) -/

/-- The structure the analyzer persists on a cache miss: `relevantFiles`
stripped to empty and `fromCache` stamped `false`. -/
def cacheableStructure (s : RepositoryStructure) : RepositoryStructure :=
  { s with relevantFiles := [], fromCache := false }

/-- `RepositoryAnalyzer.getRepositoryContext`, returning the produced
structure together with the updated cache state.  The filesystem-scanning
collaborators are abstract parameters: `findRel` stands for
`findRelevantFiles(title, body)` and `fresh` for the `buildFreshContext`
result.  On a cache hit the cached structure is reused with `fromCache=true`
and, only when an issue is supplied, freshly recomputed `relevantFiles`; on a
miss the fresh structure is returned and its cacheable form persisted. -/
def getRepositoryContext (st : CacheState) (now : Int) (repository : String)
    (issue : Option (String × String)) (findRel : String → String → List String)
    (fresh : RepositoryStructure) : RepositoryStructure × CacheState :=
  match getRepositoryStructure st now with
  | some cached =>
    match cached.structure? with
    | some cs =>
      ({ cs with
          relevantFiles :=
            match issue with
            | some (t, b) => findRel t b
            | none => cs.relevantFiles
          fromCache := true }, st)
    | none =>
      (fresh, saveRepositoryStructure st now repository (cacheableStructure fresh))
  | none =>
    (fresh, saveRepositoryStructure st now repository (cacheableStructure fresh))

/-! ## Concrete data used by witnesses and counterexamples -/

/-- An environment with no API keys and no overrides. -/
def emptyEnv : Env :=
  { ANTHROPIC_API_KEY := none
    GOOGLE_API_KEY := none
    OPENAI_API_KEY := none
    AI_PROVIDER := none
    AI_MODEL := none }

/-- A `spawnSync` result for a missing CLI binary. -/
def cliMissingSpawn : SpawnResult :=
  { error := some "ENOENT"
    status := 1
    stdout := ""
    stderr := ""
    signal := none }

/-- A spawn world in which every CLI probe fails with a missing binary. -/
def cliMissingWorld : SpawnWorld :=
  { claudeVersion := cliMissingSpawn
    claudeAuth := cliMissingSpawn
    geminiVersion := cliMissingSpawn
    geminiAuth := cliMissingSpawn
    openaiVersion := cliMissingSpawn
    openaiAuth := cliMissingSpawn }

/-- The empty cache state (no cache files on disk). -/
def emptyCache : CacheState :=
  { repoStructureFile := none
    fileSummariesFile := none
    issuePatternsFile := none }

/-- A sample repository structure carrying issue-specific relevant files. -/
def sampleStructure : RepositoryStructure :=
  { type := "Node.js Project"
    mainLanguage := "TypeScript"
    directories := ["src"]
    configFiles := ["package.json"]
    relevantFiles := ["auth.ts"]
    fromCache := true }

/-- Helper shared by several proofs: `createProvider` succeeds on every value
of the enum, so the `default: throw` branch is dead. -/
theorem createProvider_eq_ok (p : AIProvider) : createProvider p = .ok p := by
  cases p <;> rfl

/-! ## Claim theorems -/

/-- Claim C6 (confirmed): `detectProvider` returns the first provider in the
fixed priority order Claude > Gemini > OpenAI whose API-key environment
variable is present (set to a non-empty string, per JS truthiness); with only
OPENAI_API_KEY set it returns OpenAI, with ANTHROPIC_API_KEY set it returns
Claude regardless of the others, and with none set it returns Claude without
raising an error. -/
theorem C6_detectProvider_priority (env : Env) :
    (truthy env.ANTHROPIC_API_KEY = true → detectProvider env = .claude) ∧
    (truthy env.ANTHROPIC_API_KEY = false → truthy env.GOOGLE_API_KEY = true →
      detectProvider env = .gemini) ∧
    (truthy env.ANTHROPIC_API_KEY = false → truthy env.GOOGLE_API_KEY = false →
      truthy env.OPENAI_API_KEY = true → detectProvider env = .openai) ∧
    (truthy env.ANTHROPIC_API_KEY = false → truthy env.GOOGLE_API_KEY = false →
      truthy env.OPENAI_API_KEY = false → detectProvider env = .claude) := by
  refine ⟨fun h1 => ?_, fun h1 h2 => ?_, fun h1 h2 h3 => ?_, fun h1 h2 h3 => ?_⟩ <;>
    simp [detectProvider, h1, *]

/-- Witness for C6: with only OPENAI_API_KEY set (to a non-empty string),
`detectProvider` returns OpenAI. -/
theorem C6_detectProvider_priority_witness :
    truthy (Env.mk none none (some "sk-test") none none).ANTHROPIC_API_KEY = false ∧
    truthy (Env.mk none none (some "sk-test") none none).GOOGLE_API_KEY = false ∧
    truthy (Env.mk none none (some "sk-test") none none).OPENAI_API_KEY = true ∧
    detectProvider (Env.mk none none (some "sk-test") none none) = .openai :=
  ⟨rfl, rfl, rfl,
    (C6_detectProvider_priority (Env.mk none none (some "sk-test") none none)).2.2.1
      rfl rfl rfl⟩

/-- Claim C7 (confirmed): `calculateFileRelevance` always returns a
non-negative score, even when the test-file penalty applies, because the
final score is floored by `Math.max(0, score)`. -/
theorem C7_relevance_nonneg (fstat : String → Option Int) (now : Int)
    (file : String) (keywords : IssueKeywords) (issueBody : String) :
    0 ≤ calculateFileRelevance fstat now file keywords issueBody := by
  unfold calculateFileRelevance
  exact le_max_left 0 _

/-- Claim C10 (confirmed): when AI_PROVIDER is unset, empty, or (after
lowercasing) not one of "claude"/"gemini"/"openai", `getProviderConfig`
does not fail: its provider is exactly `detectProvider`'s key-based choice. -/
theorem C10_getProviderConfig_fallback (env : Env)
    (h : parsedOverride env = none) :
    (getProviderConfig env).provider = detectProvider env := by
  simp [getProviderConfig, h]

/-- Witness for C10: AI_PROVIDER set to the unknown value "gpt-4" falls back
to key-based detection. -/
theorem C10_getProviderConfig_fallback_witness :
    parsedOverride (Env.mk none none none (some "gpt-4") none) = none ∧
    (getProviderConfig (Env.mk none none none (some "gpt-4") none)).provider =
      detectProvider (Env.mk none none none (some "gpt-4") none) :=
  ⟨by decide,
    C10_getProviderConfig_fallback (Env.mk none none none (some "gpt-4") none)
      (by decide)⟩

/-- Claim C9 (confirmed): for a path with no summary present in the
file-summaries store, `removeFileSummary` is a no-op — no error is raised
(the function is total) and the persisted cache state is unchanged — and
calling it twice in a row is likewise a no-op both times. -/
theorem C9_removeFileSummary_noop (st : CacheState) (now : Int)
    (repository filePath : String)
    (h : ((getFileSummaries st now repository).summaries.getD []).lookup
      filePath = none) :
    removeFileSummary st now repository filePath = st ∧
    removeFileSummary (removeFileSummary st now repository filePath) now
      repository filePath = st := by
  have h1 : removeFileSummary st now repository filePath = st := by
    unfold removeFileSummary
    simp only [h]
  refine ⟨h1, ?_⟩
  rw [h1]
  exact h1

/-- Witness for C9: removing the summary of `"src/a.ts"` from an empty cache
leaves the cache unchanged, twice in a row. -/
theorem C9_removeFileSummary_noop_witness :
    ((getFileSummaries emptyCache 0 "owner/repo").summaries.getD []).lookup
      "src/a.ts" = none ∧
    removeFileSummary emptyCache 0 "owner/repo" "src/a.ts" = emptyCache ∧
    removeFileSummary (removeFileSummary emptyCache 0 "owner/repo" "src/a.ts")
      0 "owner/repo" "src/a.ts" = emptyCache :=
  ⟨rfl, (C9_removeFileSummary_noop emptyCache 0 "owner/repo" "src/a.ts" rfl).1,
    (C9_removeFileSummary_noop emptyCache 0 "owner/repo" "src/a.ts" rfl).2⟩

/-- Claim C5 (confirmed): when `ClaudeProvider.parseResponse` receives output
that fails strict JSON parsing and the output contains the substring
`"rate limit"`, it throws the rate-limit-specific error, not the generic
invalid-JSON error. -/
theorem C5_parseResponse_rate_limit (jsonParse : String → Option ClaudeParsed)
    (output : String) (hp : jsonParse output = none)
    (hr : strIncludes output "rate limit" = true) :
    claudeParseResponse jsonParse output =
      .error (.rateLimited ("Claude API rate limited. Output: " ++
        strTake output 200 ++ "...")) := by
  unfold claudeParseResponse
  simp [hp, hr]

/-- Witness for C5: the non-JSON output `"rate limit exceeded"` yields the
rate-limit error. -/
theorem C5_parseResponse_rate_limit_witness :
    (fun _ : String => (none : Option ClaudeParsed)) "rate limit exceeded" =
      none ∧
    strIncludes "rate limit exceeded" "rate limit" = true ∧
    claudeParseResponse (fun _ => none) "rate limit exceeded" =
      .error (.rateLimited ("Claude API rate limited. Output: " ++
        strTake "rate limit exceeded" 200 ++ "...")) :=
  ⟨rfl, by decide,
    C5_parseResponse_rate_limit (fun _ => none) "rate limit exceeded" rfl
      (by decide)⟩

/-- Claim C4 (corrected) — counterexample: the issue body
`"UserService.java"` contains the base name of the file
`"UserService.java"` under case-insensitive comparison, yet
`calculateFileRelevance` scores the file only 25 (the extension bonus):
the 100-point mentioned-in-issue bonus is NOT added, because the code
lowercases only the issue body and compares it with the original-case base
name. -/
theorem C4_counterexample :
    strIncludes (strToLower "UserService.java")
      (strToLower (baseName "UserService.java")) = true ∧
    calculateFileRelevance (fun _ => none) 0 "UserService.java"
      (IssueKeywords.mk [] IssueType.general) "UserService.java" = 25 := by
  exact ⟨by decide, by decide⟩

/-- Claim C4 (corrected, amended): `calculateFileRelevance` adds the
100-point mentioned-in-issue bonus exactly when the file's base name, in its
original letter case, appears as a substring of the lowercased issue body —
lowercasing is applied to the issue body only, so a base name containing an
uppercase letter can never earn the bonus. -/
theorem C4_mention_bonus_amended (fstat : String → Option Int) (now : Int)
    (file : String) (keywords : IssueKeywords) (issueBody : String) :
    calculateFileRelevance fstat now file keywords issueBody =
      max 0 ((if strIncludes (strToLower issueBody) (baseName file) then
          (100 : Int) else 0) +
        keywordScore file keywords + extensionScore file keywords.type +
        recencyScore fstat now file + testPenaltyScore file keywords) := rfl

/-- Claim C1 (corrected) — counterexample: with none of the three API keys
set and every CLI probe failing, `createProviderWithFallback` resolves
successfully with the Claude configuration instead of rejecting with the
"all providers failed" error. -/
theorem C1_counterexample :
    emptyEnv.ANTHROPIC_API_KEY = none ∧
    emptyEnv.GOOGLE_API_KEY = none ∧
    emptyEnv.OPENAI_API_KEY = none ∧
    createProviderWithFallback emptyEnv cliMissingWorld =
      .ok (ProviderConfig.mk AIProvider.claude none none) :=
  ⟨rfl, rfl, rfl, rfl⟩

/-- Claim C1 (corrected, amended): `createProviderWithFallback` always
resolves with the primary provider configuration — in particular it resolves
with the Claude default when no API key is set — because every provider's
`validateCLI` swallows its failures internally and never throws, so the
fallback loop and the "All AI providers failed to initialize" error are
unreachable. -/
theorem C1_fallback_amended (env : Env) (w : SpawnWorld) :
    createProviderWithFallback env w = .ok (getProviderConfig env) := by
  unfold createProviderWithFallback
  simp only [createProvider_eq_ok]

/-- Claim C8 (confirmed): each cache store decides expiry by comparing the
cache file's mtime age against its own TTL constant — 30 minutes for
repo-structure, 10080 minutes (7 days) for file-summaries, 1440 minutes
(1 day) for issue-patterns — and the `timestamp` field embedded in the stored
JSON payload never influences the expiry decision. -/
theorem C8_expiry_mtime_based (now mtime ts : Int) (d : RepositoryCacheData)
    (repository : String) :
    (CACHE_EXPIRY.REPOSITORY_STRUCTURE = 30 ∧
      CACHE_EXPIRY.FILE_SUMMARIES = 10080 ∧
      CACHE_EXPIRY.ISSUE_PATTERNS = 1440) ∧
    getRepositoryStructure (CacheState.mk (some (mtime, d)) none none) now =
      (if now - mtime > CACHE_EXPIRY.REPOSITORY_STRUCTURE * 60 * 1000 then none
        else some d) ∧
    getFileSummaries (CacheState.mk none (some (mtime, d)) none) now
        repository =
      (if now - mtime > CACHE_EXPIRY.FILE_SUMMARIES * 60 * 1000 then
        emptySummariesData repository now else d) ∧
    getIssuePatterns (CacheState.mk none none (some (mtime, d))) now
        repository =
      (if now - mtime > CACHE_EXPIRY.ISSUE_PATTERNS * 60 * 1000 then
        emptyPatternsData repository now else d) ∧
    (getRepositoryStructure
        (CacheState.mk (some (mtime, { d with timestamp := ts })) none none)
        now).isSome =
      (getRepositoryStructure (CacheState.mk (some (mtime, d)) none none)
        now).isSome := by
  refine ⟨⟨rfl, rfl, rfl⟩, ?_, ?_, ?_, ?_⟩
  · by_cases h : now - mtime > 30 * 60 * 1000 <;>
      simp [getRepositoryStructure, isExpired, CACHE_EXPIRY, h]
  · by_cases h : now - mtime > 10080 * 60 * 1000 <;>
      simp [getFileSummaries, isExpired, CACHE_EXPIRY, h]
  · by_cases h : now - mtime > 1440 * 60 * 1000 <;>
      simp [getIssuePatterns, isExpired, CACHE_EXPIRY, h]
  · by_cases h : (1800000 : ℤ) < now - mtime <;>
      simp [getRepositoryStructure, isExpired, CACHE_EXPIRY, h]

/-- Claim C2 (corrected) — counterexample: saving a structure whose
`relevantFiles` is `["auth.ts"]` and whose `fromCache` is `true` through
`saveRepositoryStructure` and reading it back immediately (well within the
30-minute TTL) returns the structure verbatim: `relevantFiles` is NOT
stripped to `[]` and `fromCache` is NOT re-stamped by the cache itself. -/
theorem C2_counterexample :
    getRepositoryStructure
      (saveRepositoryStructure emptyCache 0 "owner/repo" sampleStructure) 0 =
      some (RepositoryCacheData.mk "owner/repo" 0 (some sampleStructure) none
        none) ∧
    sampleStructure.relevantFiles = ["auth.ts"] ∧
    sampleStructure.fromCache = true ∧
    sampleStructure.relevantFiles ≠ [] :=
  ⟨rfl, rfl, rfl, by decide⟩

/-- Claim C2 (corrected, amended): `saveRepositoryStructure` persists the
structure verbatim and `getRepositoryStructure` returns it unchanged while
the file's age is within the 30-minute TTL, and returns null once the age
exceeds the TTL.  The `relevantFiles := []` stripping and the
`fromCache := true` stamping belong to RepositoryAnalyzer: it saves the
cacheable form (relevantFiles emptied, fromCache=false), so a structure `s`
saved through the analyzer and read back through `getRepositoryContext`
(without an issue) within the TTL equals `s` except `relevantFiles = []` and
`fromCache = true`. -/
theorem C2_roundtrip_amended (st : CacheState) (now now1 now2 : Int)
    (repository : String) (s : RepositoryStructure)
    (findRel : String → String → List String) (fresh : RepositoryStructure) :
    (now1 - now ≤ CACHE_EXPIRY.REPOSITORY_STRUCTURE * 60 * 1000 →
      getRepositoryStructure (saveRepositoryStructure st now repository s)
        now1 =
        some (RepositoryCacheData.mk repository now (some s) none none)) ∧
    (now1 - now ≤ CACHE_EXPIRY.REPOSITORY_STRUCTURE * 60 * 1000 →
      (getRepositoryContext
          (saveRepositoryStructure st now repository (cacheableStructure s))
          now1 repository none findRel fresh).1 =
        { s with relevantFiles := [], fromCache := true }) ∧
    (now2 - now > CACHE_EXPIRY.REPOSITORY_STRUCTURE * 60 * 1000 →
      getRepositoryStructure (saveRepositoryStructure st now repository s)
        now2 = none) := by
  refine ⟨fun h1 => ?_, fun h1 => ?_, fun h2 => ?_⟩
  · have h1' : ¬ ((1800000 : ℤ) < now1 - now) := by
      simp only [CACHE_EXPIRY] at h1
      omega
    simp [getRepositoryStructure, saveRepositoryStructure, isExpired,
      CACHE_EXPIRY, h1']
  · have h1' : ¬ ((1800000 : ℤ) < now1 - now) := by
      simp only [CACHE_EXPIRY] at h1
      omega
    simp [getRepositoryContext, getRepositoryStructure,
      saveRepositoryStructure, isExpired, CACHE_EXPIRY, cacheableStructure,
      h1']
  · have h2' : (1800000 : ℤ) < now2 - now := by
      simp only [CACHE_EXPIRY] at h2
      omega
    simp [getRepositoryStructure, saveRepositoryStructure, isExpired,
      CACHE_EXPIRY, h2']

/-- Witness for C2 (amended): a structure saved at time 0 is read back
verbatim at age one minute, yields the stripped-and-restamped structure
through the analyzer, and is gone at age 10000000 ms (≈ 167 minutes). -/
theorem C2_roundtrip_amended_witness :
    ((60000 : Int) - 0 ≤ CACHE_EXPIRY.REPOSITORY_STRUCTURE * 60 * 1000) ∧
    ((10000000 : Int) - 0 > CACHE_EXPIRY.REPOSITORY_STRUCTURE * 60 * 1000) ∧
    getRepositoryStructure
      (saveRepositoryStructure emptyCache 0 "owner/repo" sampleStructure)
      60000 =
      some (RepositoryCacheData.mk "owner/repo" 0 (some sampleStructure) none
        none) ∧
    (getRepositoryContext
        (saveRepositoryStructure emptyCache 0 "owner/repo"
          (cacheableStructure sampleStructure))
        60000 "owner/repo" none (fun _ _ => []) sampleStructure).1 =
      { sampleStructure with relevantFiles := [], fromCache := true } ∧
    getRepositoryStructure
      (saveRepositoryStructure emptyCache 0 "owner/repo" sampleStructure)
      10000000 = none :=
  ⟨by decide, by decide,
    (C2_roundtrip_amended emptyCache 0 60000 10000000 "owner/repo"
      sampleStructure (fun _ _ => []) sampleStructure).1 (by decide),
    (C2_roundtrip_amended emptyCache 0 60000 10000000 "owner/repo"
      sampleStructure (fun _ _ => []) sampleStructure).2.1 (by decide),
    (C2_roundtrip_amended emptyCache 0 60000 10000000 "owner/repo"
      sampleStructure (fun _ _ => []) sampleStructure).2.2 (by decide)⟩

/-- Claim C3 (corrected) — counterexample: a Gemini run that exits 0 with
stdout `"rate limit exceeded"` — which contains the phrase "rate limit"
under case-insensitive matching — is classified as a plain success, not as
rate-limited: no rate-limit scan runs on Gemini's successful output. -/
theorem C3_counterexample :
    strIncludes (strToLower "rate limit exceeded") "rate limit" = true ∧
    geminiRunPrompt (SpawnResult.mk none 0 "rate limit exceeded" "" none) =
      .success (geminiParseResponse "rate limit exceeded") ∧
    (geminiRunPrompt
      (SpawnResult.mk none 0 "rate limit exceeded" "" none)).isRateLimitedOutcome
      = false :=
  ⟨by decide, rfl, rfl⟩

/-- Claim C3 (corrected, amended): only the Claude provider ever classifies a
`runPrompt` outcome as rate-limited, and it does so exactly when the
subprocess exited 0 and strict JSON parsing of stdout fails while stdout
contains, case-sensitively, one of "rate limit", "usage limit",
"quota exceeded", or "try again later".  Gemini and OpenAI never classify an
outcome as rate-limited (on non-zero exits all three providers only append a
stderr-based hint to the exit error, and "too many requests" is scanned for
only by Claude's log-only `checkForRateLimiting`). -/
theorem C3_rate_limit_amended (jsonParse : String → Option ClaudeParsed)
    (r : SpawnResult) :
    (geminiRunPrompt r).isRateLimitedOutcome = false ∧
    (openaiRunPrompt r).isRateLimitedOutcome = false ∧
    (claudeRunPrompt jsonParse r).isRateLimitedOutcome =
      ((r.error == none) && (r.status == 0) && (jsonParse r.stdout).isNone &&
        (strIncludes r.stdout "rate limit" ||
          strIncludes r.stdout "usage limit" ||
          strIncludes r.stdout "quota exceeded" ||
          strIncludes r.stdout "try again later")) := by
  obtain ⟨err, status, stdout, stderr, sig⟩ := r
  refine ⟨?_, ?_, ?_⟩
  · cases err with
    | some code =>
      simp only [geminiRunPrompt]
      split <;> rfl
    | none =>
      simp only [geminiRunPrompt]
      split <;> rfl
  · cases err with
    | some code =>
      simp only [openaiRunPrompt]
      split <;> rfl
    | none =>
      simp only [openaiRunPrompt]
      split <;> rfl
  · cases err with
    | some code =>
      simp only [claudeRunPrompt]
      split <;> rfl
    | none =>
      by_cases hs : status = 0
      · subst hs
        cases hp : jsonParse stdout with
        | some parsed =>
          simp [claudeRunPrompt, claudeParseResponse, hp,
            RunOutcome.isRateLimitedOutcome]
        | none =>
          cases hc : (strIncludes stdout "rate limit" ||
              strIncludes stdout "usage limit" ||
              strIncludes stdout "quota exceeded" ||
              strIncludes stdout "try again later") with
          | true =>
            simp [claudeRunPrompt, claudeParseResponse, hp, hc,
              RunOutcome.isRateLimitedOutcome]
          | false =>
            simp [claudeRunPrompt, claudeParseResponse, hp, hc,
              RunOutcome.isRateLimitedOutcome]
      · simp [claudeRunPrompt, hs, RunOutcome.isRateLimitedOutcome]

end DevAgent
